import Mathlib

/-!
Verification of the scholarship document-evaluation pipeline.

The definitions below are a shallow embedding of the JavaScript sources:
`src/services/evaluationService.js` (text extraction, rule handling, the
mock and the AI-backed evaluator) and the application-submission route
`router.post('/submit')` (content-type rewriting, combined-text
construction, status derivation, and temp-file cleanup).

Conventions of the embedding:
- JavaScript numbers are modelled as `ℚ` (every numeric literal in the
  sources is an exact decimal); integer-valued quantities as `Int`.
- The scholarship-rules table stores rule values as strings which the
  evaluator coerces numerically at the point of use
  (`parseInt(rules.max_monthly_income || '30000')`,
  `parseFloat(rules.max_gwa || '3.0')`).  `RuleSet` carries the coerced
  numeric values, with `none` for a missing (or falsy) key, so the JS
  `x || default` fallback becomes `Option.getD`.
- Calls to external collaborators (object store, rules database,
  reasoning engine, OCR) are modelled by passing their outcomes in as
  explicit arguments; the local filesystem is the list of paths that
  currently exist on it.
- `JSON.parse` on the reasoning engine's reply happens in a JS builtin,
  outside the repository's code, so the reply is passed in post-parse as
  `Except String Json`: `.error` for a reply that is not valid JSON
  (`JSON.parse` throws), `.ok j` for the parsed value `j`.
-/

/-! ## Untyped JSON values -/

/-- Untyped JSON values, the result type of `JSON.parse`. -/
inductive Json where
  | null : Json
  | bool : Bool → Json
  | num : ℚ → Json
  | str : String → Json
  | arr : List Json → Json
  | obj : List (String × Json) → Json

/-- Property access `j[k]` on a parsed JSON value: the first binding of
field `k` when `j` is an object, `none` (JavaScript `undefined`)
otherwise. -/
def Json.find (j : Json) (k : String) : Option Json :=
  match j with
  | .obj fields => fields.lookup k
  | _ => none

/-! ## Rules (`loadRules` output, as consumed by the evaluators) -/

/-- The two scholarship-rule keys the evaluators read, numerically
coerced as the source does at point of use; `none` models a missing row
(or a falsy value, which the JS `||` fallback replaces the same way). -/
structure RuleSet where
  max_monthly_income : Option Int
  max_gwa : Option ℚ

/-! ## Number formatting helpers used in the mock evaluator's messages -/

/-- Insert a thousands separator after every third character of a
reversed digit list (helper for `intToLocaleString`). -/
def group3 : List Char → List Char
  | a :: b :: c :: d :: rest => a :: b :: c :: ',' :: group3 (d :: rest)
  | l => l

/-- JavaScript `Number.prototype.toLocaleString()` on an integral value
in the default en-US locale: decimal digits with `,` thousands
separators. -/
def intToLocaleString (i : Int) : String :=
  let ds := (Nat.toDigits 10 i.natAbs).reverse
  (if i < 0 then "-" else "") ++ String.mk (group3 ds).reverse

/-- JavaScript number-to-string conversion (template-literal
interpolation) for the exact decimals this program manipulates:
integers print without a decimal point (`3`, not `3.0`), terminating
decimals print with the shortest fraction (`2.5`). -/
def ratToJsString (q : ℚ) : String :=
  if q.den = 1 then toString q.num
  else
    match (List.range 64).find? (fun k => (10 ^ (k + 1)) % q.den = 0) with
    | some k =>
      let e := k + 1
      let digits := toString (q.num.natAbs * 10 ^ e / q.den)
      let padded := String.mk (List.replicate (e + 1 - digits.length) '0') ++ digits
      (if q.num < 0 then "-" else "") ++ padded.dropRight e ++ "." ++ padded.takeRight e
    | none => toString q.num ++ "/" ++ toString q.den

/-- `toLocaleString` on a general JS number: grouped digits for integral
values, plain decimal rendering otherwise. -/
def qToLocaleString (q : ℚ) : String :=
  if q.den = 1 then intToLocaleString q.num else ratToJsString q

/-! ## The EvaluationResult record -/

/-- The `income_check` object of an evaluation
(`evaluationService.js`, mock result lines 176–186 and the AI output
schema in the prompt). -/
structure IncomeCheck where
  passed : Bool
  mother_value_found : Option ℚ
  father_value_found : Option ℚ
  total_value_found : Option ℚ
  threshold : ℚ
  income_verified : Bool
  reason : String

/-- The `gwa_check` object of an evaluation. -/
structure GwaCheck where
  passed : Bool
  value_found : Option ℚ
  threshold : ℚ
  reason : String

/-- The `extracted_data` object of an evaluation; every field is
nullable. -/
structure ExtractedData where
  applicant_name : Option String
  mother_income : Option ℚ
  father_income : Option ℚ
  total_income : Option ℚ
  gwa : Option ℚ
  enrollment_status : Option String
  school : Option String
  course : Option String

/-- The `evaluation` sub-object: the two criterion checks. -/
structure EvaluationChecks where
  income_check : IncomeCheck
  gwa_check : GwaCheck

/-- The EvaluationResult shape produced by `generateMockEvaluation` and
promised (but not enforced) by the AI prompt's output schema. -/
structure EvaluationResult where
  qualified : Bool
  extracted_data : ExtractedData
  evaluation : EvaluationChecks
  disqualification_reasons : List String
  confidence_score : Int
  ocr_quality : String
  notes : String

/-! ## Mock evaluator (`generateMockEvaluation`, evaluationService.js 140–204) -/

/-- `generateMockEvaluation(extractedText, rules)`: synthesizes a fixed
applicant (mother 12000, father 13000, GWA 2.5), compares against the
supplied rule thresholds (defaults 30000 / 3.0 when the key is
missing), and returns a fully populated result with confidence 95.
The extracted text is accepted but never read. -/
def generateMockEvaluation (_extractedText : String) (rules : RuleSet) : EvaluationResult :=
  let mockMotherIncome : ℚ := 12000
  let mockFatherIncome : ℚ := 13000
  let mockTotalIncome : ℚ := mockMotherIncome + mockFatherIncome
  let mockGWA : ℚ := 2.5
  let maxIncome : Int := rules.max_monthly_income.getD 30000
  let maxGWA : ℚ := rules.max_gwa.getD 3.0
  let incomePass : Bool := decide (mockTotalIncome ≤ (maxIncome : ℚ))
  let gwaPass : Bool := decide (mockGWA ≤ maxGWA)
  let qualified : Bool := incomePass && gwaPass
  { qualified := qualified
    extracted_data :=
      { applicant_name := some "Test Applicant (Mock)"
        mother_income := some mockMotherIncome
        father_income := some mockFatherIncome
        total_income := some mockTotalIncome
        gwa := some mockGWA
        enrollment_status := some "Currently Enrolled"
        school := some "Mock University"
        course := some "Computer Science" }
    evaluation :=
      { income_check :=
          { passed := incomePass
            mother_value_found := some mockMotherIncome
            father_value_found := some mockFatherIncome
            total_value_found := some mockTotalIncome
            threshold := (maxIncome : ℚ)
            income_verified := true
            reason :=
              if incomePass then
                "Combined income ₱" ++ qToLocaleString mockTotalIncome ++
                  " is below threshold ₱" ++ intToLocaleString maxIncome
              else
                "Combined income ₱" ++ qToLocaleString mockTotalIncome ++
                  " exceeds threshold ₱" ++ intToLocaleString maxIncome }
        gwa_check :=
          { passed := gwaPass
            value_found := some mockGWA
            threshold := maxGWA
            reason :=
              if gwaPass then
                "GWA " ++ ratToJsString mockGWA ++ " meets requirement (≤" ++
                  ratToJsString maxGWA ++ ")"
              else
                "GWA " ++ ratToJsString mockGWA ++ " does not meet requirement (>" ++
                  ratToJsString maxGWA ++ ")" } }
    disqualification_reasons :=
      if qualified then []
      else
        (if !incomePass then ["Combined income exceeds limit"] else []) ++
          (if !gwaPass then ["GWA below requirement"] else [])
    confidence_score := 95
    ocr_quality := "good"
    notes := "⚠️ MOCK EVALUATION - This is simulated data for testing without OpenAI API" }

/-! ## Encoding an EvaluationResult as the JSON object JS sees -/

/-- A nullable string field, as JSON. -/
def jsonOfOptStr : Option String → Json
  | some s => .str s
  | none => .null

/-- A nullable number field, as JSON. -/
def jsonOfOptRat : Option ℚ → Json
  | some q => .num q
  | none => .null

/-- The `income_check` object as JSON. -/
def IncomeCheck.toJson (c : IncomeCheck) : Json :=
  .obj [("passed", .bool c.passed),
        ("mother_value_found", jsonOfOptRat c.mother_value_found),
        ("father_value_found", jsonOfOptRat c.father_value_found),
        ("total_value_found", jsonOfOptRat c.total_value_found),
        ("threshold", .num c.threshold),
        ("income_verified", .bool c.income_verified),
        ("reason", .str c.reason)]

/-- The `gwa_check` object as JSON. -/
def GwaCheck.toJson (c : GwaCheck) : Json :=
  .obj [("passed", .bool c.passed),
        ("value_found", jsonOfOptRat c.value_found),
        ("threshold", .num c.threshold),
        ("reason", .str c.reason)]

/-- The `extracted_data` object as JSON. -/
def ExtractedData.toJson (d : ExtractedData) : Json :=
  .obj [("applicant_name", jsonOfOptStr d.applicant_name),
        ("mother_income", jsonOfOptRat d.mother_income),
        ("father_income", jsonOfOptRat d.father_income),
        ("total_income", jsonOfOptRat d.total_income),
        ("gwa", jsonOfOptRat d.gwa),
        ("enrollment_status", jsonOfOptStr d.enrollment_status),
        ("school", jsonOfOptStr d.school),
        ("course", jsonOfOptStr d.course)]

/-- A full EvaluationResult as the JSON object the rest of the JS
program consumes. -/
def EvaluationResult.toJson (e : EvaluationResult) : Json :=
  .obj [("qualified", .bool e.qualified),
        ("extracted_data", e.extracted_data.toJson),
        ("evaluation", .obj [("income_check", e.evaluation.income_check.toJson),
                             ("gwa_check", e.evaluation.gwa_check.toJson)]),
        ("disqualification_reasons", .arr (e.disqualification_reasons.map Json.str)),
        ("confidence_score", .num (e.confidence_score : ℚ)),
        ("ocr_quality", .str e.ocr_quality),
        ("notes", .str e.notes)]

/-! ## AI evaluator (`evaluateWithAI`, evaluationService.js 225–406) -/

/-- The income-verification context assembled by the submit route and
passed to `evaluateWithAI` (it shapes only the prompt text sent to the
reasoning engine). -/
structure IncomeVerificationContext where
  motherIncome : ℚ
  fatherIncome : ℚ
  motherText : String
  fatherText : String
  reportText : String
  combinedText : String

/-- `evaluateWithAI(extractedText, rules, incomeVerification)`.  In mock
mode it returns `generateMockEvaluation`'s result.  Otherwise it builds
a prompt (from the rules, the extracted text, and the optional income
verification context), sends it to the reasoning engine, and returns
`JSON.parse(response.choices[0].message.content)` — the parsed reply,
unchanged and unvalidated.  The prompt construction and the network
call are elided here because the reply is an input from the engine: the
engine's reply is passed in post-parse (`.error` when `JSON.parse`
throws, which propagates; `.ok j` for the parsed value `j`, which is
returned as-is).  No field of the parsed value is inspected, coerced,
or checked against the schema the prompt requests. -/
def evaluateWithAI (useMockMode : Bool) (extractedText : String) (rules : RuleSet)
    (_incomeVerification : Option IncomeVerificationContext)
    (engineReply : Except String Json) : Except String Json :=
  if useMockMode then .ok (generateMockEvaluation extractedText rules).toJson
  else engineReply

/-! ## Text extraction (`extractText`, evaluationService.js 64–102) -/

/-- The document sources the extractor can consult, as total maps from
a file path: the raw UTF-8 bytes (`fs.readFileSync(path, 'utf8')`), the
PDF text layer (`pdfParse(buffer).text`), and the OCR transcription
(`Tesseract.recognize(path, 'eng')`). -/
structure FileEnv where
  rawText : String → String
  pdfText : String → String
  ocrText : String → String

/-- `extractText(imagePath, mimetype)`: dispatches on the declared MIME
type only — `text/plain` reads the file directly, `application/pdf`
parses the PDF text layer, and every other type falls through to OCR.
Each branch trims the result; no branch rejects a type. -/
def extractText (env : FileEnv) (imagePath : String) (mimetype : String) : String :=
  if mimetype = "text/plain" then (env.rawText imagePath).trim
  else if mimetype = "application/pdf" then (env.pdfText imagePath).trim
  else (env.ocrText imagePath).trim

/-! ## The submit route (`router.post('/submit')`, routes file) -/

/-- Derived workflow status (submit route, lines 106–108):
`evaluation.confidence_score < 60 ? 'manual_review' : evaluation.qualified ?
'qualified' : 'disqualified'`. -/
inductive ApplicationStatus where
  | qualified
  | disqualified
  | manual_review
deriving DecidableEq

/-- The status stored with the application record. -/
def deriveStatus (e : EvaluationResult) : ApplicationStatus :=
  if e.confidence_score < 60 then .manual_review
  else if e.qualified then .qualified else .disqualified

/-- Content type recorded at storage time (submit route, lines 53, 62,
71, identically for each of the three files):
`file.mimetype === 'text/plain' ? 'application/pdf' : file.mimetype`. -/
def storageContentType (mimetype : String) : String :=
  if mimetype = "text/plain" then "application/pdf" else mimetype

/-- The combined text of the three documents (submit route, line 88):
the template literal with the three fixed labels in fixed order. -/
def combinedText (motherText fatherText reportText : String) : String :=
  "Mother\x27s Income Certificate:\n" ++ motherText ++
    "\n\nFather\x27s Income Certificate:\n" ++ fatherText ++
    "\n\nReport Card:\n" ++ reportText

/-- A multer upload record, as the route reads it. -/
structure UploadedFile where
  path : String
  originalname : String
  mimetype : String

/-- The parts of the submit request the route's control flow inspects:
the three file fields and the two income form fields (a form field is a
string; a missing field is `none`). -/
structure SubmitRequest where
  mother_certificate : Option UploadedFile
  father_certificate : Option UploadedFile
  report_card : Option UploadedFile
  mother_income : Option String
  father_income : Option String

/-- JavaScript truthiness of an optional form-field string, as tested
by `!req.body.mother_income`: absent and empty strings are falsy. -/
def jsTruthyStr : Option String → Bool
  | none => false
  | some s => if s = "" then false else true

/-- Outcomes of the awaited steps inside the route's `try` block, in
program order: the three storage uploads, the `Promise.all` of the
three text extractions, the evaluation call, and the database insert.
A `false` models that step throwing (the first `false` reaches the
`catch`; later flags are then irrelevant to the observable result). -/
structure StepOutcomes where
  motherUploadOk : Bool
  fatherUploadOk : Bool
  reportUploadOk : Bool
  extractOk : Bool
  evalOk : Bool
  dbOk : Bool

/-- The route's observable reply: a 400 with its message from one of
the two validation early-returns, a 500 from the `catch`, or the 200
success JSON. -/
inductive SubmitOutcome where
  | badRequest (message : String)
  | serverError
  | success
deriving DecidableEq

/-- `fs.existsSync(p) && fs.unlinkSync(p)` as performed by the
`finally` block: remove `p` from the filesystem if present. -/
def unlinkIfExists (fsState : List String) (p : String) : List String :=
  if p ∈ fsState then fsState.filter (fun q => decide (q ≠ p)) else fsState

/-- The control flow of `router.post('/submit')` over the local
filesystem.  The two validation checks (missing documents, then missing
incomes) return 400 *before* the `try` block, touching nothing.  Once
inside `try`, every step's failure jumps to `catch` (500) and the
`finally` block unconditionally unlinks the three multer temp files;
on success it does the same after the 200 reply is prepared.  The data
computed along the way (storage paths, extracted texts, the evaluation,
the inserted record) does not affect the local filesystem, so it is
projected away here; `deriveStatus`, `storageContentType` and
`combinedText` above model those computations individually. -/
def handleSubmit (req : SubmitRequest) (outcomes : StepOutcomes) (fs0 : List String) :
    SubmitOutcome × List String :=
  match req.mother_certificate, req.father_certificate, req.report_card with
  | some motherFile, some fatherFile, some reportFile =>
    if jsTruthyStr req.mother_income && jsTruthyStr req.father_income then
      let result :=
        if outcomes.motherUploadOk && outcomes.fatherUploadOk && outcomes.reportUploadOk
            && outcomes.extractOk && outcomes.evalOk && outcomes.dbOk
        then SubmitOutcome.success
        else SubmitOutcome.serverError
      let fs1 := unlinkIfExists fs0 motherFile.path
      let fs2 := unlinkIfExists fs1 fatherFile.path
      let fs3 := unlinkIfExists fs2 reportFile.path
      (result, fs3)
    else
      (.badRequest "Both parent income values are required", fs0)
  | _, _, _ =>
    (.badRequest "All three documents are required (mother certificate, father certificate, and report card)", fs0)

/-! ## The EvaluationResult schema, as the specification states it -/

/-- Is this JSON value a boolean? -/
def Json.isBool : Json → Bool
  | .bool _ => true
  | _ => false

/-- Is this JSON value a number? -/
def Json.isNum : Json → Bool
  | .num _ => true
  | _ => false

/-- Is this JSON value a string? -/
def Json.isStr : Json → Bool
  | .str _ => true
  | _ => false

/-- Is this JSON value a number or null? -/
def Json.isNullableNum : Json → Bool
  | .num _ => true
  | .null => true
  | _ => false

/-- Is this JSON value a string or null? -/
def Json.isNullableStr : Json → Bool
  | .str _ => true
  | .null => true
  | _ => false

/-- Does field `k` exist on `j` and satisfy `p`? -/
def Json.fieldSat (j : Json) (k : String) (p : Json → Bool) : Bool :=
  match j.find k with
  | some v => p v
  | none => false

/-- Is this JSON value an array of strings? -/
def Json.isStrArray : Json → Bool
  | .arr xs => xs.all Json.isStr
  | _ => false

/-- Modelled from the spec: a `confidenceScore` is an integer in the
closed interval [0,100]. -/
def Json.isConfidenceScore : Json → Bool
  | .num q => decide (q.den = 1 ∧ 0 ≤ q.num ∧ q.num ≤ 100)
  | _ => false

/-- Modelled from the spec: `ocrQuality` is one of good, fair, poor. -/
def Json.isOcrQuality : Json → Bool
  | .str s => decide (s = "good") || decide (s = "fair") || decide (s = "poor")
  | _ => false

/-- Modelled from the spec: the income-variant CriterionCheck shape. -/
def incomeCheckSchema (j : Json) : Bool :=
  j.fieldSat "passed" Json.isBool &&
  j.fieldSat "mother_value_found" Json.isNullableNum &&
  j.fieldSat "father_value_found" Json.isNullableNum &&
  j.fieldSat "total_value_found" Json.isNullableNum &&
  j.fieldSat "threshold" Json.isNum &&
  j.fieldSat "income_verified" Json.isBool &&
  j.fieldSat "reason" Json.isStr

/-- Modelled from the spec: the GWA CriterionCheck shape. -/
def gwaCheckSchema (j : Json) : Bool :=
  j.fieldSat "passed" Json.isBool &&
  j.fieldSat "value_found" Json.isNullableNum &&
  j.fieldSat "threshold" Json.isNum &&
  j.fieldSat "reason" Json.isStr

/-- Modelled from the spec: the `extractedData` shape (each field
nullable). -/
def extractedDataSchema (j : Json) : Bool :=
  j.fieldSat "applicant_name" Json.isNullableStr &&
  j.fieldSat "mother_income" Json.isNullableNum &&
  j.fieldSat "father_income" Json.isNullableNum &&
  j.fieldSat "total_income" Json.isNullableNum &&
  j.fieldSat "gwa" Json.isNullableNum &&
  j.fieldSat "enrollment_status" Json.isNullableStr &&
  j.fieldSat "school" Json.isNullableStr &&
  j.fieldSat "course" Json.isNullableStr

/-- Modelled from the spec: the full EvaluationResult schema of the
data model (spec section 3), against which the spec says the reasoning
engine's reply is validated. -/
def matchesEvaluationResultSchema (j : Json) : Bool :=
  j.fieldSat "qualified" Json.isBool &&
  j.fieldSat "extracted_data" extractedDataSchema &&
  j.fieldSat "evaluation"
    (fun e => e.fieldSat "income_check" incomeCheckSchema &&
              e.fieldSat "gwa_check" gwaCheckSchema) &&
  j.fieldSat "disqualification_reasons" Json.isStrArray &&
  j.fieldSat "confidence_score" Json.isConfidenceScore &&
  j.fieldSat "ocr_quality" Json.isOcrQuality &&
  j.fieldSat "notes" Json.isStr

/-! ## Concrete fixtures for evaluating the classifier -/

/-- A fully-populated result with high confidence and `qualified`. -/
def sampleResultHigh : EvaluationResult :=
  { qualified := true
    extracted_data :=
      { applicant_name := some "Juana Dela Cruz", mother_income := some 15000
        father_income := some 12000, total_income := some 27000, gwa := some 2.5
        enrollment_status := some "Currently Enrolled"
        school := some "State University", course := some "Mathematics" }
    evaluation :=
      { income_check :=
          { passed := true, mother_value_found := some 15000
            father_value_found := some 12000, total_value_found := some 27000
            threshold := 30000, income_verified := true, reason := "within threshold" }
        gwa_check :=
          { passed := true, value_found := some 2.5, threshold := 3
            reason := "meets requirement" } }
    disqualification_reasons := []
    confidence_score := 95
    ocr_quality := "good"
    notes := "" }

/-- The same result with `confidence_score` 45, still `qualified`. -/
def sampleResultLow : EvaluationResult :=
  { sampleResultHigh with confidence_score := 45 }

/-- A high-confidence result with `qualified = false`. -/
def sampleResultDisq : EvaluationResult :=
  { sampleResultHigh with qualified := false, confidence_score := 80 }

/-! # Claims -/

/-- Claim C1: for every EvaluationResult, the derived ApplicationStatus
is `manual_review` whenever `confidence_score < 60` (even if `qualified`
is true); otherwise it is `qualified` when the result is qualified and
`disqualified` when it is not. -/
theorem deriveStatus_classifies (e : EvaluationResult) :
    (e.confidence_score < 60 → deriveStatus e = .manual_review) ∧
    (60 ≤ e.confidence_score → e.qualified = true → deriveStatus e = .qualified) ∧
    (60 ≤ e.confidence_score → e.qualified = false → deriveStatus e = .disqualified) := by
  refine ⟨fun h => ?_, fun h hq => ?_, fun h hq => ?_⟩
  · simp [deriveStatus, h]
  · simp [deriveStatus, hq, not_lt.mpr h]
  · simp [deriveStatus, hq, not_lt.mpr h]

/-- Claim C1, witness: the classifier evaluated at three concrete
results: confidence 45 with `qualified` gives `manual_review`,
confidence 95 with `qualified` gives `qualified`, confidence 80 without
gives `disqualified`. -/
theorem deriveStatus_classifies_witness :
    deriveStatus sampleResultLow = .manual_review ∧
    deriveStatus sampleResultHigh = .qualified ∧
    deriveStatus sampleResultDisq = .disqualified :=
  ⟨(deriveStatus_classifies sampleResultLow).1 (by decide),
   (deriveStatus_classifies sampleResultHigh).2.1 (by decide) rfl,
   (deriveStatus_classifies sampleResultDisq).2.2 (by decide) rfl⟩

/-- Claim C6: the income-verification combined text equals the
concatenation, in fixed order, of the mother-certificate text, the
father-certificate text and the report-card text, each preceded by its
fixed label; neither the labels nor the order depend on the inputs. -/
theorem combinedText_labeled_concat (motherText fatherText reportText : String) :
    combinedText motherText fatherText reportText =
      "Mother\x27s Income Certificate:\n" ++ motherText ++
        ("\n\nFather\x27s Income Certificate:\n" ++ fatherText ++
          ("\n\nReport Card:\n" ++ reportText)) := by
  simp [combinedText, String.append_assoc]

/-- Claim C9: a declared MIME type of `text/plain` is rewritten to
`application/pdf` at storage time; every other declared MIME type is
stored unchanged. -/
theorem storageContentType_rewrites (m : String) :
    storageContentType "text/plain" = "application/pdf" ∧
    (m ≠ "text/plain" → storageContentType m = m) := by
  refine ⟨rfl, fun h => ?_⟩
  simp [storageContentType, h]

/-- Claim C9, witness: a PNG upload keeps its content type while a
plain-text upload is stored as PDF. -/
theorem storageContentType_rewrites_witness :
    storageContentType "text/plain" = "application/pdf" ∧
    storageContentType "image/png" = "image/png" :=
  ⟨(storageContentType_rewrites "image/png").1,
   (storageContentType_rewrites "image/png").2 (by decide)⟩

/-- Claim C10: for every declared MIME type other than `text/plain` and
`application/pdf` — raster image or not — `extractText` falls through
to the OCR branch and returns the trimmed OCR transcription; no
unsupported-type error exists at this layer (the function is total). -/
theorem extractText_ocr_fallthrough (env : FileEnv) (p m : String)
    (h1 : m ≠ "text/plain") (h2 : m ≠ "application/pdf") :
    extractText env p m = (env.ocrText p).trim := by
  simp [extractText, h1, h2]

/-- Claim C10, witness: a Word-document MIME type, which is not a
raster-image format, is still routed to OCR. -/
theorem extractText_ocr_fallthrough_witness :
    extractText ⟨fun _ => "", fun _ => "", fun _ => " WORD document "⟩
        "uploads/w" "application/msword" = " WORD document ".trim :=
  extractText_ocr_fallthrough ⟨fun _ => "", fun _ => "", fun _ => " WORD document "⟩
    "uploads/w" "application/msword" (by decide) (by decide)

/-- Claim C2: with rules `max_monthly_income = 30000` and `max_gwa = 3`,
the mock evaluator returns, on every call and for every extracted text,
`qualified = true`, mother income 12000, father income 13000, total
income 25000, GWA 2.5 and confidence 95 (it is a pure function of its
inputs, so equal inputs always give this same result). -/
theorem generateMockEvaluation_default_rules (text : String) (rules : RuleSet)
    (hIncome : rules.max_monthly_income = some 30000)
    (hGwa : rules.max_gwa = some 3) :
    (generateMockEvaluation text rules).qualified = true ∧
    (generateMockEvaluation text rules).extracted_data.mother_income = some 12000 ∧
    (generateMockEvaluation text rules).extracted_data.father_income = some 13000 ∧
    (generateMockEvaluation text rules).extracted_data.total_income = some 25000 ∧
    (generateMockEvaluation text rules).extracted_data.gwa = some 2.5 ∧
    (generateMockEvaluation text rules).confidence_score = 95 := by
  have h1 : ((12000 : ℚ) + 13000 ≤ ((30000 : Int) : ℚ)) := by norm_num
  have h2 : ((2.5 : ℚ) ≤ (3 : ℚ)) := by norm_num
  refine ⟨?_, ?_, ?_, ?_, ?_, ?_⟩ <;>
    simp [generateMockEvaluation, hIncome, hGwa, h1, h2] <;> norm_num

/-- Claim C2, witness: the mock evaluator evaluated at the default rule
set. -/
theorem generateMockEvaluation_default_rules_witness :
    (generateMockEvaluation "" ⟨some 30000, some 3⟩).qualified = true ∧
    (generateMockEvaluation "" ⟨some 30000, some 3⟩).extracted_data.mother_income = some 12000 ∧
    (generateMockEvaluation "" ⟨some 30000, some 3⟩).extracted_data.father_income = some 13000 ∧
    (generateMockEvaluation "" ⟨some 30000, some 3⟩).extracted_data.total_income = some 25000 ∧
    (generateMockEvaluation "" ⟨some 30000, some 3⟩).extracted_data.gwa = some 2.5 ∧
    (generateMockEvaluation "" ⟨some 30000, some 3⟩).confidence_score = 95 :=
  generateMockEvaluation_default_rules "" ⟨some 30000, some 3⟩ rfl rfl

/-- Claim C8: with `max_monthly_income = 20000`, the mock evaluator's
fixed synthetic total income of 25000 fails the income check and the
applicant is not qualified — the passed flags are computed from the
rule thresholds actually passed in, not hard-coded. -/
theorem generateMockEvaluation_tight_income (text : String) (rules : RuleSet)
    (hIncome : rules.max_monthly_income = some 20000) :
    (generateMockEvaluation text rules).evaluation.income_check.passed = false ∧
    (generateMockEvaluation text rules).qualified = false := by
  constructor
  · simp [generateMockEvaluation, hIncome]
    norm_num
  · simp [generateMockEvaluation, hIncome]
    intro h
    norm_num at h

/-- Claim C8, witness: the mock evaluator evaluated at the tightened
rule set. -/
theorem generateMockEvaluation_tight_income_witness :
    (generateMockEvaluation "" ⟨some 20000, some 3⟩).evaluation.income_check.passed = false ∧
    (generateMockEvaluation "" ⟨some 20000, some 3⟩).qualified = false :=
  generateMockEvaluation_tight_income "" ⟨some 20000, some 3⟩ rfl

/-- Claim C3, counterexample: the claim fails for the AI evaluator.  A
reply from the reasoning engine carrying `qualified = true` together
with `income_check.passed = false` is returned by `evaluateWithAI`
exactly as parsed — the code never compares `qualified` with the two
passed flags — so this produced result has `qualified = true` without
both checks passing. -/
theorem evaluateWithAI_qualified_mismatch :
    evaluateWithAI false "" ⟨some 30000, some 3⟩ none
        (.ok (.obj [("qualified", .bool true),
                    ("evaluation", .obj
                      [("income_check", .obj [("passed", .bool false)]),
                       ("gwa_check", .obj [("passed", .bool true)])])])) =
      .ok (.obj [("qualified", .bool true),
                 ("evaluation", .obj
                   [("income_check", .obj [("passed", .bool false)]),
                    ("gwa_check", .obj [("passed", .bool true)])])]) ∧
    (Json.obj [("qualified", .bool true),
               ("evaluation", .obj
                 [("income_check", .obj [("passed", .bool false)]),
                  ("gwa_check", .obj [("passed", .bool true)])])]).find "qualified" =
      some (.bool true) ∧
    (((Json.obj [("qualified", .bool true),
                 ("evaluation", .obj
                   [("income_check", .obj [("passed", .bool false)]),
                    ("gwa_check", .obj [("passed", .bool true)])])]).find "evaluation").bind
        (fun e => e.find "income_check")).bind (fun c => c.find "passed") =
      some (.bool false) :=
  ⟨rfl, rfl, rfl⟩

/-- Claim C3 (amended): for every result produced by the mock evaluator,
`qualified` equals the conjunction of `income_check.passed` and
`gwa_check.passed`; the AI evaluator returns the engine's parsed reply
unchanged, so for its results the equivalence holds only when the reply
already satisfies it. -/
theorem qualified_iff_both_checks (text : String) (rules : RuleSet) :
    ((generateMockEvaluation text rules).qualified =
      ((generateMockEvaluation text rules).evaluation.income_check.passed &&
       (generateMockEvaluation text rules).evaluation.gwa_check.passed)) ∧
    (∀ (ic : Option IncomeVerificationContext) (reply : Except String Json),
      evaluateWithAI false text rules ic reply = reply) :=
  ⟨rfl, fun _ _ => rfl⟩

/-- Claim C4, counterexample: a schema-deviating reply is accepted in
full.  The JSON object `{"hello": 5}` matches no part of the
EvaluationResult schema, yet `evaluateWithAI` returns it unchanged
instead of raising a parse/validation error. -/
theorem evaluateWithAI_accepts_schema_deviant :
    evaluateWithAI false "" ⟨none, none⟩ none (.ok (.obj [("hello", .num 5)])) =
      .ok (.obj [("hello", .num 5)]) ∧
    matchesEvaluationResultSchema (.obj [("hello", .num 5)]) = false :=
  ⟨rfl, rfl⟩

/-- Claim C4 (amended): the AI evaluator returns `JSON.parse` of the
engine's reply text: a parse failure propagates as a thrown error, and
any successfully parsed JSON value — schema-conforming or not — is
returned unchanged; no validation against the EvaluationResult schema
is performed. -/
theorem evaluateWithAI_returns_parse_outcome (text : String) (rules : RuleSet)
    (ic : Option IncomeVerificationContext) :
    (∀ msg : String, evaluateWithAI false text rules ic (.error msg) = .error msg) ∧
    (∀ j : Json, evaluateWithAI false text rules ic (.ok j) = .ok j) :=
  ⟨fun _ => rfl, fun _ => rfl⟩

/-- Claim C5, counterexample: the claim fails for the AI evaluator.  A
parsed reply whose `confidence_score` is 150 — outside [0,100] — is
produced unchanged; the code never range-checks the score. -/
theorem evaluateWithAI_accepts_out_of_range_confidence :
    evaluateWithAI false "" ⟨some 30000, some 3⟩ none
        (.ok (.obj [("confidence_score", .num 150)])) =
      .ok (.obj [("confidence_score", .num 150)]) ∧
    (Json.obj [("confidence_score", .num 150)]).find "confidence_score" =
      some (.num 150) ∧
    Json.isConfidenceScore (.num 150) = false :=
  ⟨rfl, rfl, rfl⟩

/-- Claim C5 (amended): every result produced by the mock evaluator has
`confidence_score = 95`, an integer in [0,100]; the AI evaluator
returns the engine's parsed reply without any range check, so for its
results the invariant holds only when the reply already satisfies it. -/
theorem mock_confidence_score_in_range (text : String) (rules : RuleSet) :
    ((generateMockEvaluation text rules).confidence_score = 95 ∧
     0 ≤ (generateMockEvaluation text rules).confidence_score ∧
     (generateMockEvaluation text rules).confidence_score ≤ 100) ∧
    (∀ (ic : Option IncomeVerificationContext) (reply : Except String Json),
      evaluateWithAI false text rules ic reply = reply) := by
  refine ⟨⟨rfl, ?_, ?_⟩, fun _ _ => rfl⟩ <;>
  · rw [show (generateMockEvaluation text rules).confidence_score = 95 from rfl]
    decide

/-- After `unlinkIfExists fsState p`, the path `p` no longer exists. -/
theorem not_mem_unlinkIfExists_self (fsState : List String) (p : String) :
    p ∉ unlinkIfExists fsState p := by
  unfold unlinkIfExists
  split
  · intro hmem
    exact absurd rfl (of_decide_eq_true (List.mem_filter.mp hmem).2)
  · assumption

/-- `unlinkIfExists` creates no path: membership afterwards implies
membership before. -/
theorem mem_of_mem_unlinkIfExists {fsState : List String} {p q : String}
    (h : q ∈ unlinkIfExists fsState p) : q ∈ fsState := by
  unfold unlinkIfExists at h
  split at h
  · exact (List.mem_filter.mp h).1
  · exact h

/-- Claim C7, counterexample: the claim fails on the validation-failure
exit path.  A submission uploading all three documents (so multer has
already written their temp files) but omitting `mother_income` is
rejected 400 by the early validation return, which runs before the
`try/finally`; the request completes with all three uploaded temp files
still on the filesystem. -/
theorem handleSubmit_validation_leaves_files :
    (handleSubmit
        ⟨some ⟨"uploads/m1", "mother.png", "image/png"⟩,
         some ⟨"uploads/f1", "father.png", "image/png"⟩,
         some ⟨"uploads/r1", "report.pdf", "application/pdf"⟩,
         none, some "13000"⟩
        ⟨true, true, true, true, true, true⟩
        ["uploads/m1", "uploads/f1", "uploads/r1"]).1 =
      .badRequest "Both parent income values are required" ∧
    "uploads/m1" ∈ (handleSubmit
        ⟨some ⟨"uploads/m1", "mother.png", "image/png"⟩,
         some ⟨"uploads/f1", "father.png", "image/png"⟩,
         some ⟨"uploads/r1", "report.pdf", "application/pdf"⟩,
         none, some "13000"⟩
        ⟨true, true, true, true, true, true⟩
        ["uploads/m1", "uploads/f1", "uploads/r1"]).2 ∧
    "uploads/f1" ∈ (handleSubmit
        ⟨some ⟨"uploads/m1", "mother.png", "image/png"⟩,
         some ⟨"uploads/f1", "father.png", "image/png"⟩,
         some ⟨"uploads/r1", "report.pdf", "application/pdf"⟩,
         none, some "13000"⟩
        ⟨true, true, true, true, true, true⟩
        ["uploads/m1", "uploads/f1", "uploads/r1"]).2 ∧
    "uploads/r1" ∈ (handleSubmit
        ⟨some ⟨"uploads/m1", "mother.png", "image/png"⟩,
         some ⟨"uploads/f1", "father.png", "image/png"⟩,
         some ⟨"uploads/r1", "report.pdf", "application/pdf"⟩,
         none, some "13000"⟩
        ⟨true, true, true, true, true, true⟩
        ["uploads/m1", "uploads/f1", "uploads/r1"]).2 := by
  refine ⟨rfl, ?_, ?_, ?_⟩ <;> simp [handleSubmit, jsTruthyStr]

/-- Claim C7 (amended): once both validation checks have passed, the
`try/finally` guarantees cleanup — on every exit of the processing
steps (success, storage-upload failure, extraction failure, evaluation
failure, database failure) none of the three multer temp paths exists
on the filesystem when the request completes.  On the two early
validation-failure returns, which run before the `try`, the uploaded
temp files are not deleted. -/
theorem handleSubmit_deletes_temp_files (req : SubmitRequest) (outcomes : StepOutcomes)
    (fs0 : List String) (motherFile fatherFile reportFile : UploadedFile)
    (hm : req.mother_certificate = some motherFile)
    (hf : req.father_certificate = some fatherFile)
    (hr : req.report_card = some reportFile)
    (hmi : jsTruthyStr req.mother_income = true)
    (hfi : jsTruthyStr req.father_income = true) :
    motherFile.path ∉ (handleSubmit req outcomes fs0).2 ∧
    fatherFile.path ∉ (handleSubmit req outcomes fs0).2 ∧
    reportFile.path ∉ (handleSubmit req outcomes fs0).2 := by
  have hred : (handleSubmit req outcomes fs0).2 =
      unlinkIfExists (unlinkIfExists (unlinkIfExists fs0 motherFile.path)
        fatherFile.path) reportFile.path := by
    simp [handleSubmit, hm, hf, hr, hmi, hfi]
  rw [hred]
  refine ⟨fun hmem => ?_, fun hmem => ?_, not_mem_unlinkIfExists_self _ _⟩
  · exact not_mem_unlinkIfExists_self _ _
      (mem_of_mem_unlinkIfExists (mem_of_mem_unlinkIfExists hmem))
  · exact not_mem_unlinkIfExists_self _ _ (mem_of_mem_unlinkIfExists hmem)

/-- Claim C7, witness: a fully valid submission whose database insert
fails; the reply is a 500 and every temp file is gone. -/
theorem handleSubmit_deletes_temp_files_witness :
    "uploads/m2" ∉ (handleSubmit
        ⟨some ⟨"uploads/m2", "mother.png", "image/png"⟩,
         some ⟨"uploads/f2", "father.png", "image/png"⟩,
         some ⟨"uploads/r2", "report.pdf", "application/pdf"⟩,
         some "12000", some "13000"⟩
        ⟨true, true, true, true, true, false⟩
        ["uploads/m2", "uploads/f2", "uploads/r2"]).2 ∧
    "uploads/f2" ∉ (handleSubmit
        ⟨some ⟨"uploads/m2", "mother.png", "image/png"⟩,
         some ⟨"uploads/f2", "father.png", "image/png"⟩,
         some ⟨"uploads/r2", "report.pdf", "application/pdf"⟩,
         some "12000", some "13000"⟩
        ⟨true, true, true, true, true, false⟩
        ["uploads/m2", "uploads/f2", "uploads/r2"]).2 ∧
    "uploads/r2" ∉ (handleSubmit
        ⟨some ⟨"uploads/m2", "mother.png", "image/png"⟩,
         some ⟨"uploads/f2", "father.png", "image/png"⟩,
         some ⟨"uploads/r2", "report.pdf", "application/pdf"⟩,
         some "12000", some "13000"⟩
        ⟨true, true, true, true, true, false⟩
        ["uploads/m2", "uploads/f2", "uploads/r2"]).2 :=
  handleSubmit_deletes_temp_files
    ⟨some ⟨"uploads/m2", "mother.png", "image/png"⟩,
     some ⟨"uploads/f2", "father.png", "image/png"⟩,
     some ⟨"uploads/r2", "report.pdf", "application/pdf"⟩,
     some "12000", some "13000"⟩
    ⟨true, true, true, true, true, false⟩
    ["uploads/m2", "uploads/f2", "uploads/r2"]
    ⟨"uploads/m2", "mother.png", "image/png"⟩
    ⟨"uploads/f2", "father.png", "image/png"⟩
    ⟨"uploads/r2", "report.pdf", "application/pdf"⟩
    rfl rfl rfl (by decide) (by decide)
